import Mathlib

/-!
Shallow embedding of `shell/browser/ui/views/title_bar.cc` (the Electron
custom title bar view) and proofs about it.

Modelling conventions:
* Pixel coordinates and OS metrics are `Int` (C++ `int`).
* C++ integer division truncates toward zero, so it is modelled by
  `Int.tdiv`; a `static_cast<int>` of a non-negative float is likewise
  truncation toward zero.
* The C++ `float` arithmetic in `IconView::PaintIcon` is modelled by exact
  rational arithmetic (`ℚ`); the properties proved here do not depend on
  rounding of the intermediate scale factor.
* Calls into the toolkit (`views::Widget`, canvas drawing) are modelled as
  emitted operations / recorded draw commands, and widget state is an
  explicit record threaded through.
-/

namespace Electron

/-- View IDs used by the title bar (the `VIEW_ID_*` constants referenced in
`title_bar.cc`), plus a constructor for any other view that may handle an
event (e.g. the title bar itself or the title label). -/
inductive ViewID where
  | hamburgerButton
  | minimizeButton
  | maximizeButton
  | restoreButton
  | closeButton
  | windowTitle
  | iconView
  | otherView
  deriving DecidableEq, Repr

/-- A point, as `gfx::Point` (integer DIP coordinates). -/
structure Point where
  x : Int
  y : Int
  deriving DecidableEq, Repr

/-- A rectangle, as `gfx::Rect`: origin plus non-negative-by-convention
width/height (the arithmetic here never relies on sign restrictions). -/
structure Rect where
  x : Int
  y : Int
  w : Int
  h : Int
  deriving DecidableEq, Repr

/-- gfx::Rect::right() = x + width. -/
def Rect.right (r : Rect) : Int := r.x + r.w

/-- gfx::Rect::bottom() = y + height. -/
def Rect.bottom (r : Rect) : Int := r.y + r.h

/-- gfx::Rect::Contains(point): `x ≤ px < right ∧ y ≤ py < bottom`. -/
def Rect.containsPoint (r : Rect) (p : Point) : Bool :=
  r.x ≤ p.x && p.x < r.right && r.y ≤ p.y && p.y < r.bottom

/-- Hit-test codes from `ui/base/hit_test.h` used by
`TitleBar::NonClientHitTest`. -/
inductive HitTestCode where
  | HTNOWHERE
  | HTCLIENT
  | HTCAPTION
  deriving DecidableEq, Repr

/-- Reasons for closing a widget (`views::Widget::ClosedReason`); only
`kCloseButtonClicked` is used by the title bar. -/
inductive ClosedReason where
  | kUnspecified
  | kCloseButtonClicked
  deriving DecidableEq, Repr

/-- The window-manager operations the title bar can invoke on its widget. -/
inductive WmOp where
  | minimize
  | maximize
  | restore
  | closeWithReason (reason : ClosedReason)
  deriving DecidableEq, Repr

/-- The widget's window state, as far as the title bar observes or changes
it (`views::Widget`: IsMaximized, Minimize, Maximize, Restore,
CloseWithReason). -/
structure WidgetState where
  maximized : Bool
  minimized : Bool
  closed : Bool
  closedReason : Option ClosedReason
  deriving DecidableEq, Repr

/-- Effect of one window-manager operation on the widget's window state
(the toolkit side of Minimize/Maximize/Restore/CloseWithReason). -/
def WidgetState.applyOp (w : WidgetState) : WmOp → WidgetState
  | .minimize => { w with minimized := true }
  | .maximize => { w with maximized := true, minimized := false }
  | .restore => { w with maximized := false, minimized := false }
  | .closeWithReason r => { w with closed := true, closedReason := some r }

/-- Running an optional emitted operation on the widget state; `none` means
no window-manager call was made. -/
def WidgetState.run (w : WidgetState) : Option WmOp → WidgetState
  | none => w
  | some op => w.applyOp op

/-- OS metrics in DIP, as returned by
`display::win::ScreenWin::GetSystemMetricsInDIP` for the `SM_*` indices the
title bar queries. -/
structure OSMetrics where
  cyCaption : Int
  cySizeFrame : Int
  cyEdge : Int
  cySmIcon : Int
  cxSizeFrame : Int
  deriving DecidableEq, Repr

/-- gfx::kFaviconSize (ui/gfx/favicon_size.h). -/
def kFaviconSize : Int := 16

/-- An SkBitmap, abstracted to what `GetWindowIcon` inspects. -/
structure SkBitmap where
  isNull : Bool
  width : Int
  height : Int
  deriving DecidableEq, Repr

/-- A gfx::ImageSkia, abstracted to nullness and dimensions. -/
structure ImageSkia where
  isNull : Bool
  width : Int
  height : Int
  deriving DecidableEq, Repr

/-- The default-constructed `gfx::ImageSkia()`: a null image. -/
def ImageSkia.nullImage : ImageSkia := ⟨true, 0, 0⟩

/-- gfx::ImageSkia::CreateFrom1xBitmap on a non-null bitmap yields a
non-null image with the bitmap's dimensions. -/
def ImageSkia.createFrom1xBitmap (b : SkBitmap) : ImageSkia :=
  ⟨false, b.width, b.height⟩

/-- GetWindowIcon (anonymous namespace of title_bar.cc): load the
application icon, convert it to a bitmap, and wrap it; on either failure
return the null image. `loadIcon` models the result of
`::LoadIcon(NULL, IDI_APPLICATION)` (an optional handle) and
`createSkBitmapFromHICON` models `IconUtil::CreateSkBitmapFromHICON`. -/
def GetWindowIcon (loadIcon : Option Nat)
    (createSkBitmapFromHICON : Nat → SkBitmap) : ImageSkia :=
  match loadIcon with
  | none => ImageSkia.nullImage
  | some h =>
    let iconBitmap := createSkBitmapFromHICON h
    if iconBitmap.isNull then ImageSkia.nullImage
    else ImageSkia.createFrom1xBitmap iconBitmap

/-- Truncation of a rational toward zero, as C++ `static_cast<int>` on a
float value (the denominator of a `ℚ` is positive, so `Int.tdiv` of
numerator by denominator truncates the quotient toward zero). -/
def ratTrunc (q : ℚ) : Int := Int.tdiv q.num (q.den : Int)

/-- One recorded `gfx::Canvas::DrawImageInt` call: source sub-rectangle,
destination origin, destination size. -/
structure DrawCmd where
  srcX : Int
  srcY : Int
  srcW : Int
  srcH : Int
  destX : Int
  destY : Int
  destW : Int
  destH : Int
  deriving DecidableEq, Repr

namespace IconView

/-- IconView::CalculatePreferredSize: the favicon square. -/
def calculatePreferredSize : Int × Int := (kFaviconSize, kFaviconSize)

/-- IconView::PaintIcon: scale the image proportionately into the view
(small images are treated as padded to the favicon square), truncate the
scaled dimensions to ints, and draw centered. `viewW`/`viewH` are the
view's `width()`/`height()`. Returns the single draw command issued. -/
def paintIcon (viewW viewH : Int) (image : ImageSkia) : DrawCmd :=
  let floatSrcW : ℚ := (image.width : ℚ)
  let floatSrcH : ℚ := (image.height : ℚ)
  let scalable : ℚ × ℚ :=
    if image.width ≤ kFaviconSize && image.height ≤ kFaviconSize then
      ((kFaviconSize : ℚ), (kFaviconSize : ℚ))
    else (floatSrcW, floatSrcH)
  let scale : ℚ := min ((viewW : ℚ) / scalable.1) ((viewH : ℚ) / scalable.2)
  let destW := ratTrunc (floatSrcW * scale)
  let destH := ratTrunc (floatSrcH * scale)
  { srcX := 0, srcY := 0, srcW := image.width, srcH := image.height
    destX := Int.tdiv (viewW - destW) 2, destY := Int.tdiv (viewH - destH) 2
    destW := destW, destH := destH }

/-- IconView::PaintButtonContents: fetch the window icon and paint it only
when it is non-null; the returned list is the draw commands issued on the
canvas. -/
def paintButtonContents (loadIcon : Option Nat)
    (createSkBitmapFromHICON : Nat → SkBitmap)
    (viewW viewH : Int) : List DrawCmd :=
  let icon := GetWindowIcon loadIcon createSkBitmapFromHICON
  if icon.isNull then [] else [paintIcon viewW viewH icon]

end IconView

namespace TitleBar

/-- TitleBar::ShowTitle: always true. -/
def showTitle : Bool := true

/-- TitleBar::ShowIcon: always false. -/
def showIcon : Bool := false

/-- TitleBar::ShowHamburgerMenu: always true. -/
def showHamburgerMenu : Bool := true

/-- The kind of child view the constructor adds. -/
inductive ChildKind where
  | captionButton (id : ViewID)
  | iconView
  | titleLabel
  deriving DecidableEq, Repr

/-- The children added by `TitleBar::TitleBar`, in `AddChildView` order:
the hamburger caption button, the icon view, the title label, and the
minimize/maximize/restore/close caption buttons (each caption button is
created by `CreateCaptionButton`, which constructs a
`WindowsCaptionButton` and adds it as a child). -/
def constructedChildren : List ChildKind :=
  [ChildKind.captionButton ViewID.hamburgerButton,
   ChildKind.iconView,
   ChildKind.titleLabel,
   ChildKind.captionButton ViewID.minimizeButton,
   ChildKind.captionButton ViewID.maximizeButton,
   ChildKind.captionButton ViewID.restoreButton,
   ChildKind.captionButton ViewID.closeButton]

/-- TitleBar::Height: caption height plus size-frame height, plus edge
height unless the widget exists and is maximized
(`GetWidget() && GetWidget()->IsMaximized() ? 0 : SM_CYEDGE`). -/
def height (m : OSMetrics) (widget : Option WidgetState) : Int :=
  m.cyCaption + m.cySizeFrame +
    (if (match widget with
         | some w => w.maximized
         | none => false) then 0 else m.cyEdge)

/-- Whether a view ID is one of the four caption-button cases of the
switch in `TitleBar::NonClientHitTest`. -/
def isCaptionButtonID (id : ViewID) : Bool :=
  match id with
  | .minimizeButton | .maximizeButton | .restoreButton | .closeButton => true
  | _ => false

/-- TitleBar::NonClientHitTest: inside the bounds, points whose event
handler is a caption button are HTCLIENT and all others HTCAPTION;
outside the bounds the result is HTNOWHERE. `eventHandlerAt` models
`GetEventHandlerForPoint(point)->GetID()`. -/
def nonClientHitTest (bounds : Rect) (eventHandlerAt : Point → ViewID)
    (point : Point) : HitTestCode :=
  if bounds.containsPoint point then
    match eventHandlerAt point with
    | .minimizeButton | .maximizeButton | .restoreButton | .closeButton =>
      HitTestCode.HTCLIENT
    | _ => HitTestCode.HTCAPTION
  else HitTestCode.HTNOWHERE

/-- The identity of the button passed to `TitleBar::ButtonPressed` as
`sender`: the pointer comparisons against the stored child buttons are
modelled by the buttons' distinct view IDs (each button member holds a
distinct view with that ID). -/
abbrev Sender := ViewID

/-- A UI event (`ui::Event`), unused by the dispatch. -/
structure UIEvent where
  flags : Nat
  deriving DecidableEq, Repr

/-- TitleBar::ButtonPressed: the window-manager operation invoked on the
widget for a given sender, if any (`none` means no branch was taken and no
widget call was made). -/
def buttonPressed (sender : Sender) (event : UIEvent) : Option WmOp :=
  match event with
  | _ =>
    if sender = ViewID.minimizeButton then some WmOp.minimize
    else if sender = ViewID.maximizeButton then some WmOp.maximize
    else if sender = ViewID.restoreButton then some WmOp.restore
    else if sender = ViewID.closeButton then
      some (WmOp.closeWithReason ClosedReason.kCloseButtonClicked)
    else none

/-- The widget state after `TitleBar::ButtonPressed` runs: the emitted
operation (if any) applied to the prior state. -/
def buttonPressedState (sender : Sender) (event : UIEvent)
    (w : WidgetState) : WidgetState :=
  w.run (buttonPressed sender event)

/-- The layout-relevant state of one caption button: its bounds, its
visibility flag, and its preferred size (`GetPreferredSize`, computed by
`WindowsCaptionButton` outside this file and hence an input here). -/
structure ButtonState where
  bounds : Rect
  visible : Bool
  prefW : Int
  prefH : Int
  deriving DecidableEq, Repr

/-- views::View::SetBounds on a button: replaces the bounds rectangle and
leaves the rest of the state alone. -/
def ButtonState.setBounds (b : ButtonState) (x y w h : Int) : ButtonState :=
  { b with bounds := ⟨x, y, w, h⟩ }

/-- TitleBar::LayoutCaptionButton: place `button` with its preferred size
so that its right edge lands at `previousButtonX`, flush with the top. -/
def layoutCaptionButton (button : ButtonState)
    (previousButtonX : Int) : ButtonState :=
  button.setBounds (previousButtonX - button.prefW) 0 button.prefW button.prefH

/-- The four caption buttons `LayoutCaptionButtons` manipulates. -/
structure CaptionButtons where
  minimize : ButtonState
  maximize : ButtonState
  restore : ButtonState
  close : ButtonState
  deriving DecidableEq, Repr

/-- TitleBar::LayoutCaptionButtons: lay the close button against the title
bar's right edge (`width()`), then restore and maximize against the close
button's new x, setting their visibility from `GetWidget()->IsMaximized()`,
then minimize against the maximize button's new x. `width` is the title
bar's `width()` and `maximized` the widget's `IsMaximized()`. -/
def layoutCaptionButtons (width : Int) (maximized : Bool)
    (s : CaptionButtons) : CaptionButtons :=
  let close := layoutCaptionButton s.close width
  let restore := layoutCaptionButton s.restore close.bounds.x
  let restore := { restore with visible := maximized }
  let maximize := layoutCaptionButton s.maximize close.bounds.x
  let maximize := { maximize with visible := !maximized }
  let minimize := layoutCaptionButton s.minimize maximize.bounds.x
  { minimize := minimize, maximize := maximize,
    restore := restore, close := close }

/-- kMaximizedLeftMargin in TitleBar::LayoutTitleBar. -/
def kMaximizedLeftMargin : Int := 2

/-- kIconTitleSpacing in TitleBar::LayoutTitleBar. -/
def kIconTitleSpacing : Int := 5

/-- kMinimumTitleLeftBorderMargin in TitleBar::LayoutTitleBar. -/
def kMinimumTitleLeftBorderMargin : Int := 11

/-- What one run of `TitleBar::LayoutTitleBar` did: the computed local
`window_icon_bounds` rectangle, the bounds actually set on the icon view,
the hamburger button, and the title label (`none` where no `SetBounds`-like
call happened), and whether the `DCHECK_LE` statement was reached. -/
structure TitleBarLayoutResult where
  windowIconBounds : Option Rect
  iconViewBounds : Option Rect
  hamburgerBounds : Option Rect
  titleBounds : Option Rect
  dcheckReached : Bool
  deriving DecidableEq, Repr

/-- TitleBar::LayoutTitleBar, translated branch by branch. `m` holds the
OS metrics, `widget` the widget's state (the caller `Layout` guarantees a
widget is present), `hamburgerPref` the hamburger button's preferred size,
and `minimizeX` the minimize button's current `x()` (set beforehand by
`LayoutCaptionButtons`). -/
def layoutTitleBar (m : OSMetrics) (widget : WidgetState)
    (hamburgerPref : Int × Int) (minimizeX : Int) : TitleBarLayoutResult :=
  if !showIcon && !showTitle then
    { windowIconBounds := none, iconViewBounds := none,
      hamburgerBounds := none, titleBounds := none, dcheckReached := false }
  else
    let iconSize := m.cySmIcon
    let nextLeadingX0 := m.cxSizeFrame
    let nextLeadingX1 :=
      if widget.maximized then nextLeadingX0 + kMaximizedLeftMargin
      else nextLeadingX0
    let nextTrailingX := minimizeX
    let y := Int.tdiv (height m (some widget) - iconSize) 2
    let windowIconBounds : Rect := ⟨nextLeadingX1, y, iconSize, iconSize⟩
    let afterIcon :
        Option Rect × Option Rect × Int :=
      if showIcon then
        (some windowIconBounds, none,
         windowIconBounds.right + kIconTitleSpacing)
      else if showHamburgerMenu then
        let hamburgerRect : Rect := ⟨0, 0, hamburgerPref.1, hamburgerPref.2⟩
        (none, some hamburgerRect, hamburgerRect.right + kIconTitleSpacing)
      else (none, none, nextLeadingX1)
    let iconViewBounds := afterIcon.1
    let hamburgerBounds := afterIcon.2.1
    let nextLeadingX2 := afterIcon.2.2
    if showTitle then
      let branch : Int × Bool :=
        if !showIcon && !showHamburgerMenu then
          (kMinimumTitleLeftBorderMargin, true)
        else (nextLeadingX2, false)
      let nextLeadingX3 := branch.1
      let maxTextWidth := max 0 (nextTrailingX - nextLeadingX3)
      { windowIconBounds := some windowIconBounds,
        iconViewBounds := iconViewBounds,
        hamburgerBounds := hamburgerBounds,
        titleBounds :=
          some ⟨nextLeadingX3, windowIconBounds.y,
                maxTextWidth, windowIconBounds.h⟩,
        dcheckReached := branch.2 }
    else
      { windowIconBounds := some windowIconBounds,
        iconViewBounds := iconViewBounds,
        hamburgerBounds := hamburgerBounds,
        titleBounds := none, dcheckReached := false }

/-- TitleBar::Layout: does nothing without a widget; with a widget it runs
`LayoutCaptionButtons` then `LayoutTitleBar` (the minimize x fed to the
latter is the one the former just set). -/
def layout (m : OSMetrics) (widget : Option WidgetState)
    (hamburgerPref : Int × Int) (width : Int) (s : CaptionButtons) :
    Option (CaptionButtons × TitleBarLayoutResult) :=
  match widget with
  | none => none
  | some w =>
    let buttons := layoutCaptionButtons width w.maximized s
    some (buttons, layoutTitleBar m w hamburgerPref buttons.minimize.bounds.x)

end TitleBar

/-- The set of children the spec's claim C8 says the title bar owns,
stated from the spec's words: an icon, a title label, and four caption
buttons (minimize/maximize/restore/close). -/
def claimedChildrenC8 : List TitleBar.ChildKind :=
  [TitleBar.ChildKind.iconView,
   TitleBar.ChildKind.titleLabel,
   TitleBar.ChildKind.captionButton ViewID.minimizeButton,
   TitleBar.ChildKind.captionButton ViewID.maximizeButton,
   TitleBar.ChildKind.captionButton ViewID.restoreButton,
   TitleBar.ChildKind.captionButton ViewID.closeButton]

/-- The height the spec's claim C4 describes, stated from the spec's
words: SM_CYCAPTION plus SM_CYSIZEFRAME, plus SM_CYEDGE when the widget
exists and is not maximized. -/
def heightClaimedC4 (m : OSMetrics) (widget : Option WidgetState) : Int :=
  m.cyCaption + m.cySizeFrame +
    (if (match widget with
         | some w => !w.maximized
         | none => false) then m.cyEdge else 0)

end Electron

namespace Electron

/-- C1: after every call to `TitleBar::LayoutCaptionButtons`, the restore
button is visible iff the widget is maximized and the maximize button is
visible iff it is not, so exactly one of the pair is visible. -/
theorem layoutCaptionButtons_visibility (width : Int) (maximized : Bool)
    (s : TitleBar.CaptionButtons) :
    (TitleBar.layoutCaptionButtons width maximized s).restore.visible
        = maximized ∧
    (TitleBar.layoutCaptionButtons width maximized s).maximize.visible
        = !maximized ∧
    ((TitleBar.layoutCaptionButtons width maximized s).restore.visible
        ^^ (TitleBar.layoutCaptionButtons width maximized s).maximize.visible)
        = true := by
  cases maximized <;>
    simp [TitleBar.layoutCaptionButtons, TitleBar.layoutCaptionButton,
          TitleBar.ButtonState.setBounds]

/-- C2: `TitleBar::ButtonPressed` is a four-way dispatch on button
identity: for every event, the minimize button triggers Minimize, the
maximize button Maximize, the restore button Restore, and the close button
CloseWithReason(kCloseButtonClicked). -/
theorem buttonPressed_dispatch (e : TitleBar.UIEvent) :
    TitleBar.buttonPressed ViewID.minimizeButton e = some WmOp.minimize ∧
    TitleBar.buttonPressed ViewID.maximizeButton e = some WmOp.maximize ∧
    TitleBar.buttonPressed ViewID.restoreButton e = some WmOp.restore ∧
    TitleBar.buttonPressed ViewID.closeButton e =
      some (WmOp.closeWithReason ClosedReason.kCloseButtonClicked) := by
  refine ⟨rfl, rfl, rfl, rfl⟩

/-- C3: `TitleBar::NonClientHitTest` maps a point inside the bounds whose
event handler is one of the four caption buttons to HTCLIENT, any other
point inside the bounds to HTCAPTION, and any point outside the bounds to
HTNOWHERE. -/
theorem nonClientHitTest_regions (bounds : Rect)
    (eventHandlerAt : Point → ViewID) (p : Point) :
    TitleBar.nonClientHitTest bounds eventHandlerAt p =
      (if bounds.containsPoint p then
        (if TitleBar.isCaptionButtonID (eventHandlerAt p) then
          HitTestCode.HTCLIENT
        else HitTestCode.HTCAPTION)
      else HitTestCode.HTNOWHERE) := by
  unfold TitleBar.nonClientHitTest TitleBar.isCaptionButtonID
  cases h : bounds.containsPoint p
  · simp [h]
  · simp only [h, if_true]
    cases eventHandlerAt p <;> simp

/-- C4 counterexample: with caption 23, frame 4 and edge 2, a title bar
with no widget has `Height` 29, while the claim's formula (SM_CYEDGE added
only when the widget exists and is not maximized) yields 27: the code adds
SM_CYEDGE also when there is no widget. -/
theorem height_no_widget_counterexample :
    TitleBar.height ⟨23, 4, 2, 16, 4⟩ none ≠
      heightClaimedC4 ⟨23, 4, 2, 16, 4⟩ none := by
  decide

/-- C4 amended: `TitleBar::Height` is SM_CYCAPTION + SM_CYSIZEFRAME, plus
SM_CYEDGE unless the widget exists and is maximized; in particular the
SM_CYEDGE term is also present when there is no widget. -/
theorem height_amended (m : OSMetrics) (widget : Option WidgetState)
    (w : WidgetState) :
    (widget = some w → w.maximized = true →
        TitleBar.height m widget = m.cyCaption + m.cySizeFrame) ∧
    (widget = some w → w.maximized = false →
        TitleBar.height m widget = m.cyCaption + m.cySizeFrame + m.cyEdge) ∧
    (widget = none →
        TitleBar.height m widget = m.cyCaption + m.cySizeFrame + m.cyEdge) := by
  refine ⟨?_, ?_, ?_⟩ <;> intro h
  · intro hm
    subst h
    simp [TitleBar.height, hm]
  · intro hm
    subst h
    simp [TitleBar.height, hm]
  · subst h
    simp [TitleBar.height]

/-- Witness for the amended C4 theorem at concrete metrics
(caption 23, frame 4, edge 2): a maximized widget gives 27, an unmaximized
widget gives 29, and no widget gives 29. -/
theorem height_amended_witness :
    TitleBar.height ⟨23, 4, 2, 16, 4⟩ (some ⟨true, false, false, none⟩) = 27 ∧
    TitleBar.height ⟨23, 4, 2, 16, 4⟩ (some ⟨false, false, false, none⟩) = 29 ∧
    TitleBar.height ⟨23, 4, 2, 16, 4⟩ none = 29 := by
  refine ⟨?_, ?_, ?_⟩
  · have h := (height_amended ⟨23, 4, 2, 16, 4⟩
      (some ⟨true, false, false, none⟩) ⟨true, false, false, none⟩).1 rfl rfl
    simpa using h
  · have h := (height_amended ⟨23, 4, 2, 16, 4⟩
      (some ⟨false, false, false, none⟩) ⟨false, false, false, none⟩).2.1 rfl rfl
    simpa using h
  · have h := (height_amended ⟨23, 4, 2, 16, 4⟩ none
      ⟨false, false, false, none⟩).2.2 rfl
    simpa using h

/-- C5: whenever loading the window icon fails (LoadIcon returns null, or
the converted bitmap is null), `GetWindowIcon` returns a null image and
`IconView::PaintButtonContents` issues no draw command. -/
theorem getWindowIcon_null_fallback (loadIcon : Option Nat)
    (createSkBitmapFromHICON : Nat → SkBitmap) (viewW viewH : Int)
    (h : ∀ i, loadIcon = some i → (createSkBitmapFromHICON i).isNull = true) :
    (GetWindowIcon loadIcon createSkBitmapFromHICON).isNull = true ∧
    IconView.paintButtonContents loadIcon createSkBitmapFromHICON
      viewW viewH = [] := by
  cases loadIcon with
  | none =>
    simp [GetWindowIcon, IconView.paintButtonContents, ImageSkia.nullImage]
  | some i =>
    have hi := h i rfl
    simp [GetWindowIcon, IconView.paintButtonContents, hi, ImageSkia.nullImage]

/-- Witness for C5: a successfully loaded handle whose bitmap conversion
is null yields a null image and an empty draw-command list. -/
theorem getWindowIcon_null_fallback_witness :
    (GetWindowIcon (some 0) (fun _ => ⟨true, 0, 0⟩)).isNull = true ∧
    IconView.paintButtonContents (some 0) (fun _ => ⟨true, 0, 0⟩) 16 16 = [] :=
  getWindowIcon_null_fallback (some 0) (fun _ => ⟨true, 0, 0⟩) 16 16
    (fun i hi => by cases hi; rfl)

/-- C6: after `TitleBar::LayoutCaptionButtons` the close button's right
edge is the title bar's width, the restore and maximize buttons' right
edges are the close button's x, the minimize button's right edge is the
maximize button's x, and all four buttons sit at y = 0. -/
theorem layoutCaptionButtons_right_to_left (width : Int) (maximized : Bool)
    (s : TitleBar.CaptionButtons) :
    (TitleBar.layoutCaptionButtons width maximized s).close.bounds.right
        = width ∧
    (TitleBar.layoutCaptionButtons width maximized s).restore.bounds.right
        = (TitleBar.layoutCaptionButtons width maximized s).close.bounds.x ∧
    (TitleBar.layoutCaptionButtons width maximized s).maximize.bounds.right
        = (TitleBar.layoutCaptionButtons width maximized s).close.bounds.x ∧
    (TitleBar.layoutCaptionButtons width maximized s).minimize.bounds.right
        = (TitleBar.layoutCaptionButtons width maximized s).maximize.bounds.x ∧
    (TitleBar.layoutCaptionButtons width maximized s).close.bounds.y = 0 ∧
    (TitleBar.layoutCaptionButtons width maximized s).restore.bounds.y = 0 ∧
    (TitleBar.layoutCaptionButtons width maximized s).maximize.bounds.y = 0 ∧
    (TitleBar.layoutCaptionButtons width maximized s).minimize.bounds.y
        = 0 := by
  simp [TitleBar.layoutCaptionButtons, TitleBar.layoutCaptionButton,
        TitleBar.ButtonState.setBounds, Rect.right]

/-- C7: `IconView::PaintIcon` draws the scaled image at destination offset
((width - dest_w) / 2, (height - dest_h) / 2), and
`TitleBar::LayoutTitleBar` computes the icon rectangle at vertical offset
(Height() - icon_size) / 2. -/
theorem icon_centering (viewW viewH : Int) (image : ImageSkia)
    (m : OSMetrics) (w : WidgetState) (hamburgerPref : Int × Int)
    (minimizeX : Int) :
    (IconView.paintIcon viewW viewH image).destX =
      Int.tdiv (viewW - (IconView.paintIcon viewW viewH image).destW) 2 ∧
    (IconView.paintIcon viewW viewH image).destY =
      Int.tdiv (viewH - (IconView.paintIcon viewW viewH image).destH) 2 ∧
    ∃ r : Rect,
      (TitleBar.layoutTitleBar m w hamburgerPref minimizeX).windowIconBounds
          = some r ∧
      r.y = Int.tdiv (TitleBar.height m (some w) - m.cySmIcon) 2 := by
  refine ⟨rfl, rfl, ?_⟩
  simp [TitleBar.layoutTitleBar, TitleBar.showIcon, TitleBar.showTitle,
        TitleBar.showHamburgerMenu]

/-- C8 counterexample: the constructor's children are not limited to the
claimed set (icon, title label, four caption buttons): the hamburger
caption button is also a child; and a concrete layout pass does not
position the icon view, since ShowIcon() is false. -/
theorem titleBar_children_counterexample :
    (¬ ∀ c ∈ TitleBar.constructedChildren, c ∈ claimedChildrenC8) ∧
    (TitleBar.layoutTitleBar ⟨23, 4, 2, 16, 4⟩ ⟨false, false, false, none⟩
        (45, 30) 100).iconViewBounds = none := by
  refine ⟨by decide, by decide⟩

/-- C8 amended: the title bar owns exactly seven children — a hamburger
caption button, an icon view, a title label, and the minimize, maximize,
restore and close caption buttons — and every layout pass with a widget
sets the four caption buttons' bounds (to their preferred sizes), the
hamburger button's bounds and the title label's bounds, while the icon
view is never positioned because ShowIcon() is false. -/
theorem titleBar_children_amended (m : OSMetrics) (w : WidgetState)
    (hamburgerPref : Int × Int) (width : Int) (s : TitleBar.CaptionButtons) :
    TitleBar.constructedChildren =
      [TitleBar.ChildKind.captionButton ViewID.hamburgerButton,
       TitleBar.ChildKind.iconView,
       TitleBar.ChildKind.titleLabel,
       TitleBar.ChildKind.captionButton ViewID.minimizeButton,
       TitleBar.ChildKind.captionButton ViewID.maximizeButton,
       TitleBar.ChildKind.captionButton ViewID.restoreButton,
       TitleBar.ChildKind.captionButton ViewID.closeButton] ∧
    ∃ buttons res,
      TitleBar.layout m (some w) hamburgerPref width s
          = some (buttons, res) ∧
      buttons.minimize.bounds.w = s.minimize.prefW ∧
      buttons.maximize.bounds.w = s.maximize.prefW ∧
      buttons.restore.bounds.w = s.restore.prefW ∧
      buttons.close.bounds.w = s.close.prefW ∧
      (∃ hr, res.hamburgerBounds = some hr) ∧
      (∃ tr, res.titleBounds = some tr) ∧
      res.iconViewBounds = none := by
  refine ⟨rfl, ?_⟩
  refine ⟨_, _, rfl, ?_, ?_, ?_, ?_, ?_, ?_, ?_⟩ <;>
    simp [TitleBar.layout, TitleBar.layoutCaptionButtons,
          TitleBar.layoutCaptionButton, TitleBar.ButtonState.setBounds,
          TitleBar.layoutTitleBar, TitleBar.showIcon, TitleBar.showTitle,
          TitleBar.showHamburgerMenu]

/-- C9: for a sender that is none of the minimize, maximize, restore or
close buttons (e.g. the hamburger button or the icon view),
`TitleBar::ButtonPressed` invokes no window-manager operation and leaves
the widget's window state unchanged. -/
theorem buttonPressed_frame (sender : TitleBar.Sender) (e : TitleBar.UIEvent)
    (w : WidgetState)
    (h1 : sender ≠ ViewID.minimizeButton)
    (h2 : sender ≠ ViewID.maximizeButton)
    (h3 : sender ≠ ViewID.restoreButton)
    (h4 : sender ≠ ViewID.closeButton) :
    TitleBar.buttonPressed sender e = none ∧
    TitleBar.buttonPressedState sender e w = w := by
  have hnone : TitleBar.buttonPressed sender e = none := by
    simp [TitleBar.buttonPressed, h1, h2, h3, h4]
  exact ⟨hnone, by simp [TitleBar.buttonPressedState, hnone, WidgetState.run]⟩

/-- Witness for C9: a hamburger-button click emits no operation and leaves
a concrete widget state untouched. -/
theorem buttonPressed_frame_witness :
    TitleBar.buttonPressed ViewID.hamburgerButton ⟨0⟩ = none ∧
    TitleBar.buttonPressedState ViewID.hamburgerButton ⟨0⟩
        ⟨false, false, false, none⟩ = ⟨false, false, false, none⟩ :=
  buttonPressed_frame ViewID.hamburgerButton ⟨0⟩ ⟨false, false, false, none⟩
    (by decide) (by decide) (by decide) (by decide)

/-- C10: the `DCHECK_LE(next_leading_x, kMinimumTitleLeftBorderMargin)` in
`TitleBar::LayoutTitleBar` is never reached: its branch requires both
ShowIcon() and ShowHamburgerMenu() to be false, but ShowHamburgerMenu()
always returns true. -/
theorem dcheck_unreachable (m : OSMetrics) (w : WidgetState)
    (hamburgerPref : Int × Int) (minimizeX : Int) :
    TitleBar.showHamburgerMenu = true ∧
    (TitleBar.layoutTitleBar m w hamburgerPref minimizeX).dcheckReached
        = false := by
  refine ⟨rfl, ?_⟩
  simp [TitleBar.layoutTitleBar, TitleBar.showIcon, TitleBar.showTitle,
        TitleBar.showHamburgerMenu]

end Electron
